import Mathlib

/-
  Verification of the order-payment reconciliation subsystem of the
  GBAsoro/ecommerce-backend repository.

  The embedding models the payment controller (initializePayment,
  verifyPayment, handleWebhook, handleSuccessfulCharge, handleFailedCharge),
  the Paystack service helpers (amount conversion, webhook signature
  validation), and the Payment / Order persistent records.

  Modelling conventions:
  - The Mongo store is a pair of lists (payments keyed by the unique
    reference string, orders keyed by a numeric id).  Mongoose findOne /
    findById become List.find?; document save becomes key-based replacement;
    Payment.create appends.
  - JS numbers are modelled as rationals; Math.round is floor(x + 1/2),
    which is exactly the JS rounding rule (round half toward positive
    infinity).
  - Every external-gateway interaction is a parameter of the operation:
    the outcome the gateway would produce is passed in, and the outcome
    record reports whether the gateway branch was reached.
  - The HMAC-SHA512 digest of the signature check is an abstract function
    parameter (secret, serialized body) to hex string; the serialized
    request body is carried verbatim next to its parsed fields.
-/

namespace ECommerce

/-- Payment status enum from src/models/Payment.js (status field,
enum pending / success / failed / abandoned). -/
inductive PStatus
  | pending
  | success
  | failed
  | abandoned
deriving DecidableEq, Repr

/-- The fields of a Paystack charge payload that the controller reads
(data.status, data.reference, data.gateway_response, data.channel,
data.paid_at, data.id, data.customer.email).  The rest of the payload is
stored verbatim and never branched on, so it is not modelled separately. -/
structure VerdictData where
  status : String
  reference : String
  gateway_response : String
  channel : String
  paid_at : String
  txId : Int
  customerEmail : String
deriving DecidableEq, Repr

/-- The fields of a successful Paystack initialize response that the
controller reads (data.authorization_url, data.access_code). -/
structure InitData where
  authorization_url : String
  access_code : String
deriving DecidableEq, Repr

/-- The opaque paystackData blob stored on a Payment: either a charge
payload (set by the resolve paths) or an initialize response (set at
creation). -/
inductive PaystackBlob
  | verdict (d : VerdictData)
  | init (d : InitData)
deriving DecidableEq, Repr

/-- order.paymentResult snapshot written on successful resolution
(id, status, updateTime, emailAddress). -/
structure PaymentResult where
  resId : Int
  resStatus : String
  updateTime : String
  emailAddress : String
deriving DecidableEq, Repr

/-- A Payment ledger row, from src/models/Payment.js.  User and order ids
are numeric stand-ins for ObjectIds; paidAt keeps the raw paid_at string
that the controller wraps in a Date. -/
structure Payment where
  user : Nat
  order : Nat
  reference : String
  amount : Rat
  currency : String
  status : PStatus
  paymentMethod : Option String := none
  channel : Option String := none
  gatewayResponse : Option String := none
  paidAt : Option String := none
  paystackData : Option PaystackBlob := none
deriving DecidableEq, Repr

/-- The paid-state slice of an Order that the reconciliation code touches
(isPaid, paidAt, paymentMethod, paystackReference, paymentResult) plus its
identity, owner and totalPrice. -/
structure Order where
  id : Nat
  user : Nat
  totalPrice : Rat
  isPaid : Bool
  paidAt : Option String := none
  paymentMethod : Option String := none
  paystackReference : Option String := none
  paymentResult : Option PaymentResult := none
deriving DecidableEq, Repr

/-- The persistent store: the Payment collection and the Order collection. -/
structure DB where
  payments : List Payment
  orders : List Order
deriving DecidableEq, Repr

/-- Payment.findOne with a reference filter (the reference field is unique
and indexed). -/
def findPayment (db : DB) (reference : String) : Option Payment :=
  db.payments.find? (fun p => p.reference == reference)

/-- Order.findById. -/
def findOrder (db : DB) (orderId : Nat) : Option Order :=
  db.orders.find? (fun o => o.id == orderId)

/-- payment.save(): replace the row carrying this reference. -/
def savePayment (db : DB) (p : Payment) : DB :=
  { db with payments := db.payments.map (fun q => if q.reference == p.reference then p else q) }

/-- order.save(): replace the row carrying this id. -/
def saveOrder (db : DB) (o : Order) : DB :=
  { db with orders := db.orders.map (fun q => if q.id == o.id then o else q) }

/-- Payment.create: append a new ledger row. -/
def createPayment (db : DB) (p : Payment) : DB :=
  { db with payments := db.payments ++ [p] }

/-! ### Paystack service helpers (src/services/paystack.js) -/

/-- JavaScript Math.round: round half toward positive infinity. -/
def jsRound (q : Rat) : Int := ⌊q + 1 / 2⌋

/-- toKobo from the Paystack service: Math.round(amount * 100). -/
def toKobo (amount : Rat) : Int := jsRound (amount * 100)

/-- The amount field sent by initializeTransaction:
Math.round(amount * 100), converting the major-unit amount to
kobo / pesewas / cents. -/
def initTransactionAmount (amount : Rat) : Int := jsRound (amount * 100)

/-- validateWebhookSignature from the Paystack service: recompute the
keyed HMAC-SHA512 hex digest over the serialized body and compare with
the supplied header.  A missing header compares unequal to the digest
(hash === undefined is false in JS). -/
def validateWebhookSignature (hmac : String → String → String) (secret : String)
    (signature : Option String) (rawBody : String) : Bool :=
  match signature with
  | none => false
  | some s => hmac secret rawBody == s

/-! ### Payment controller operations -/

/-- Outcome of the paystackService.verifyTransaction call as seen by the
controller: either the call throws, or it returns a response whose status
flag and data field the controller inspects. -/
inductive VerifyGw
  | throws
  | resp (ok : Bool) (data : VerdictData)
deriving DecidableEq, Repr

/-- Result of the verifyPayment route: the error responses, the
already-verified short-circuit (returning the stored payment), or a fresh
resolution (returning the updated payment). -/
inductive VerifyResult
  | errPaymentNotFound
  | errForbidden
  | alreadyVerified (payment : Payment)
  | errVerificationFailed
  | resolved (payment : Payment)
deriving DecidableEq, Repr

/-- State and response of one verifyPayment call; gatewayCalled records
whether control reached the paystackService.verifyTransaction call. -/
structure VerifyOutcome where
  db : DB
  result : VerifyResult
  gatewayCalled : Bool
deriving DecidableEq, Repr

/-- verifyPayment (payment controller): look up the payment by reference,
enforce ownership, short-circuit when the stored status is already
success, otherwise ask the gateway and apply the verdict, marking the
order paid on a success verdict. -/
def verifyPayment (db : DB) (reference : String) (userId : Nat) (gw : VerifyGw) :
    VerifyOutcome :=
  match findPayment db reference with
  | none => ⟨db, .errPaymentNotFound, false⟩
  | some payment =>
    if payment.user ≠ userId then ⟨db, .errForbidden, false⟩
    else if payment.status = .success then ⟨db, .alreadyVerified payment, false⟩
    else
      match gw with
      | .throws => ⟨db, .errVerificationFailed, true⟩
      | .resp ok data =>
        if ok = false then ⟨db, .errVerificationFailed, true⟩
        else
          let p1 : Payment :=
            { payment with
              status := if data.status = "success" then .success else .failed
              paystackData := some (.verdict data)
              gatewayResponse := some data.gateway_response
              channel := some data.channel
              paymentMethod := some data.channel }
          if data.status = "success" then
            let p2 : Payment := { p1 with paidAt := some data.paid_at }
            match findOrder db p2.order with
            | some o =>
              let o2 : Order :=
                { o with
                  isPaid := true
                  paidAt := some data.paid_at
                  paymentMethod := some "paystack"
                  paystackReference := some reference
                  paymentResult := some ⟨data.txId, data.status, data.paid_at, data.customerEmail⟩ }
              ⟨savePayment (saveOrder db o2) p2, .resolved p2, true⟩
            | none => ⟨savePayment db p2, .resolved p2, true⟩
          else
            ⟨savePayment db p1, .resolved p1, true⟩

/-- handleSuccessfulCharge (webhook helper): find the payment by the
payload reference (missing payment is only logged), unconditionally apply
the success fields and save the payment, then mark the order paid unless
it already is. -/
def handleSuccessfulCharge (db : DB) (data : VerdictData) : DB :=
  match findPayment db data.reference with
  | none => db
  | some payment =>
    let p2 : Payment :=
      { payment with
        status := .success
        paystackData := some (.verdict data)
        gatewayResponse := some data.gateway_response
        channel := some data.channel
        paymentMethod := some data.channel
        paidAt := some data.paid_at }
    let db1 := savePayment db p2
    match findOrder db1 p2.order with
    | none => db1
    | some o =>
      if o.isPaid then db1
      else
        saveOrder db1
          { o with
            isPaid := true
            paidAt := some data.paid_at
            paymentMethod := some "paystack"
            paystackReference := some data.reference
            paymentResult := some ⟨data.txId, data.status, data.paid_at, data.customerEmail⟩ }

/-- handleFailedCharge (webhook helper): find the payment by the payload
reference (missing payment is only logged), set failed status plus the
payload and gateway-response fields, save the payment; the order is never
touched. -/
def handleFailedCharge (db : DB) (data : VerdictData) : DB :=
  match findPayment db data.reference with
  | none => db
  | some payment =>
    savePayment db
      { payment with
        status := .failed
        paystackData := some (.verdict data)
        gatewayResponse := some data.gateway_response }

/-- A webhook request: the signature header (possibly absent), the exact
serialized body the HMAC is computed over, and the parsed event and data
fields of that body. -/
structure WebhookReq where
  signature : Option String
  rawBody : String
  event : String
  data : VerdictData

/-- Webhook HTTP outcome: 400 on signature failure, 200 otherwise. -/
inductive WebhookResult
  | errInvalidSignature
  | acknowledged
deriving DecidableEq, Repr

/-- handleWebhook (payment controller): validate the signature first and
reject with 400 on failure; otherwise dispatch on the event type
(charge.success / charge.failed mutate state, transfer events and unknown
events are logged only) and always acknowledge with 200. -/
def handleWebhook (hmac : String → String → String) (secret : String)
    (db : DB) (req : WebhookReq) : DB × WebhookResult :=
  if validateWebhookSignature hmac secret req.signature req.rawBody = false then
    (db, .errInvalidSignature)
  else
    let db1 :=
      if req.event = "charge.success" then handleSuccessfulCharge db req.data
      else if req.event = "charge.failed" then handleFailedCharge db req.data
      else db
    (db1, .acknowledged)

/-! ### initializePayment -/

/-- Outcome of the paystackService.initializeTransaction call as seen by
the controller: a throw, or a response with a status flag and data. -/
inductive InitGw
  | throws
  | resp (ok : Bool) (data : InitData)
deriving DecidableEq, Repr

/-- Result of the initializePayment route. -/
inductive InitResult
  | errOrderNotFound
  | errForbidden
  | errOrderAlreadyPaid
  | errPaymentCompleted
  | alreadyInitialized (payment : Payment)
  | errInitThrown
  | errInitFailed
  | created (payment : Payment)
deriving DecidableEq, Repr

/-- State and response of one initializePayment call; gatewayCalled and
sentAmount record whether the gateway branch was reached and which
converted amount initializeTransaction passed to the provider. -/
structure InitOutcome where
  db : DB
  result : InitResult
  gatewayCalled : Bool
  sentAmount : Option Int
deriving DecidableEq, Repr

/-- The Payment.findOne({order, status in [pending, success]}) lookup of
initializePayment. -/
def findActivePayment (db : DB) (orderId : Nat) : Option Payment :=
  db.payments.find?
    (fun p => p.order == orderId && (p.status == .pending || p.status == .success))

/-- The generated reference: ORDER-{orderId}-{Date.now()}. -/
def mkReference (orderId : Nat) (now : Nat) : String :=
  "ORDER-" ++ toString orderId ++ "-" ++ toString now

/-- The ledger row Payment.create persists on the happy path of
initializePayment: pending status, the order's totalPrice in major
units, the requesting user, the caller's currency defaulted to NGN, and
the gateway authorization data. -/
def createdPayment (orderId userId : Nat) (currency : Option String) (now : Nat)
    (d : InitData) (total : Rat) : Payment :=
  { user := userId
    order := orderId
    reference := mkReference orderId now
    amount := total
    currency := currency.getD "NGN"
    status := .pending
    paystackData := some (.init d) }

/-- initializePayment (payment controller): load and authorize the order,
reject when it is already paid, return an existing pending payment or
reject on an existing successful one, otherwise call the gateway and -
only on a successful response - create the pending ledger row.  Payload
fields that the state machine never branches on (email, metadata,
callback_url) are elided. -/
def initializePayment (db : DB) (orderId userId : Nat) (currency : Option String)
    (now : Nat) (gw : InitGw) : InitOutcome :=
  match findOrder db orderId with
  | none => ⟨db, .errOrderNotFound, false, none⟩
  | some order =>
    if order.user ≠ userId then ⟨db, .errForbidden, false, none⟩
    else if order.isPaid then ⟨db, .errOrderAlreadyPaid, false, none⟩
    else
      match findActivePayment db orderId with
      | some existingPayment =>
        if existingPayment.status = .success then ⟨db, .errPaymentCompleted, false, none⟩
        else ⟨db, .alreadyInitialized existingPayment, false, none⟩
      | none =>
        match gw with
        | .throws => ⟨db, .errInitThrown, true, some (initTransactionAmount order.totalPrice)⟩
        | .resp ok data =>
          if ok = false then
            ⟨db, .errInitFailed, true, some (initTransactionAmount order.totalPrice)⟩
          else
            let payment : Payment :=
              createdPayment orderId userId currency now data order.totalPrice
            ⟨createPayment db payment, .created payment, true,
              some (initTransactionAmount order.totalPrice)⟩

/-! ### Resolve calls with a success verdict, over both delivery paths -/

/-- One Resolve invocation carrying a success verdict: either a client
polls the verify route (the gateway answering with the given payload), or
a charge.success webhook delivery arrives with the payload. -/
inductive SuccessCall
  | poll (userId : Nat) (data : VerdictData)
  | hook (data : VerdictData)

/-- The verdict payload carried by a call. -/
def callData : SuccessCall → VerdictData
  | .poll _ d => d
  | .hook d => d

/-- Apply one call to the store: polling runs verifyPayment on the given
reference, a webhook delivery runs handleSuccessfulCharge. -/
def applyCall (reference : String) (db : DB) (c : SuccessCall) : DB :=
  match c with
  | .poll userId data => (verifyPayment db reference userId (.resp true data)).db
  | .hook data => handleSuccessfulCharge db data

/-- Apply a sequence of calls left to right. -/
def applyCalls (reference : String) (db : DB) (cs : List SuccessCall) : DB :=
  cs.foldl (applyCall reference) db

/-- The call is a success verdict aimed at this payment: polls come from
the payment's owner and carry a success status; webhook payloads carry the
payment's reference and a success status. -/
def successCallFor (reference : String) (owner : Nat) : SuccessCall → Prop
  | .poll userId data => userId = owner ∧ data.status = "success"
  | .hook data => data.reference = reference ∧ data.status = "success"

/-- State reached after the first successful resolution: the ledger row at
the reference is in success state with unchanged identity fields, and the
referenced order is exactly the row the first call wrote. -/
def resolvedInv (reference : String) (owner oid : Nat) (o1 : Order) (db : DB) : Prop :=
  (∃ q, findPayment db reference = some q ∧ q.status = .success ∧ q.user = owner ∧
    q.order = oid ∧ q.reference = reference) ∧
  findOrder db oid = some o1

/-! ### Concrete fixtures used to evaluate the operations -/

/-- A pending ledger row for order 1, owned by user 1. -/
def wPendingPayment : Payment :=
  { user := 1, order := 1, reference := "ORDER-1-5", amount := 5000, currency := "NGN",
    status := .pending }

/-- The matching unpaid order. -/
def wUnpaidOrder : Order :=
  { id := 1, user := 1, totalPrice := 5000, isPaid := false }

/-- Store holding the pending payment and its unpaid order. -/
def wDB : DB := ⟨[wPendingPayment], [wUnpaidOrder]⟩

/-- A success verdict payload for the pending payment's reference. -/
def wSuccessData : VerdictData :=
  { status := "success", reference := "ORDER-1-5", gateway_response := "Approved",
    channel := "card", paid_at := "2024-01-01T00:00:00Z", txId := 11,
    customerEmail := "a@b.com" }

/-- A failed verdict payload for the pending payment's reference. -/
def wFailData : VerdictData :=
  { status := "failed", reference := "ORDER-1-5", gateway_response := "Declined",
    channel := "card", paid_at := "", txId := 7, customerEmail := "a@b.com" }

/-- The ledger row after a successful resolution (terminal state). -/
def wSuccPayment : Payment :=
  { user := 1, order := 1, reference := "ORDER-1-5", amount := 5000, currency := "NGN",
    status := .success, paidAt := some "2024-01-01T00:00:00Z" }

/-- The matching paid order. -/
def wPaidOrder : Order :=
  { id := 1, user := 1, totalPrice := 5000, isPaid := true,
    paidAt := some "2024-01-01T00:00:00Z" }

/-- Store holding the resolved payment and its paid order. -/
def wSuccDB : DB := ⟨[wSuccPayment], [wPaidOrder]⟩

/-- Store holding only the unpaid order and no payment rows. -/
def wEmptyDB : DB := ⟨[], [wUnpaidOrder]⟩

/-- A digest function whose value on every input is the string sig. -/
def wHmac : String → String → String := fun _ _ => "sig"

/-- A charge.failed webhook request carrying a matching signature. -/
def wFailReq : WebhookReq :=
  { signature := some "sig", rawBody := "rb", event := "charge.failed", data := wFailData }

/-- A webhook request whose signature does not match the recomputed digest. -/
def wBadSigReq : WebhookReq :=
  { signature := some "bad", rawBody := "rb", event := "charge.success", data := wSuccessData }

/-- A webhook request with a matching signature and an unrecognized event. -/
def wOtherReq : WebhookReq :=
  { signature := some "sig", rawBody := "rb", event := "subscription.create",
    data := wSuccessData }

/-- A gateway initialize response payload. -/
def wInitData : InitData :=
  { authorization_url := "https://checkout.example/x", access_code := "AC1" }

/-! ### Store lemmas -/

/-- Replacing the row whose key is the written row's key makes a lookup of
that key return the written row, provided the key was present. -/
theorem find?_map_replace {α κ : Type} [BEq κ] [LawfulBEq κ] (key : α → κ) (p q : α)
    (r : κ) (l : List α) (hp : key p = r) :
    l.find? (fun x => key x == r) = some q →
    (l.map (fun x => if key x == key p then p else x)).find? (fun x => key x == r)
      = some p := by
  induction l with
  | nil => intro h; simp at h
  | cons a t ih =>
    intro h
    by_cases ha : key a = r
    · simp only [List.map_cons]
      rw [if_pos (by simp [ha, hp])]
      exact List.find?_cons_of_pos _ (by simp [hp])
    · have hne : ((fun x => key x == r) a) = false := by simp [ha]
      rw [List.find?_cons_of_neg _ (by simp [ha])] at h
      simp only [List.map_cons]
      rw [if_neg (by simp [hp, ha]), List.find?_cons_of_neg _ (by simp [ha])]
      exact ih h

/-- If no row of the first list matches, a lookup over the concatenation
searches the second list. -/
theorem find?_append_of_none {α : Type} (p : α → Bool) {l1 : List α} (l2 : List α)
    (h : l1.find? p = none) : (l1 ++ l2).find? p = l2.find? p := by
  rw [List.find?_append, h]; rfl

/-- A payment found by reference carries that reference. -/
theorem findPayment_ref {db : DB} {r : String} {p : Payment}
    (h : findPayment db r = some p) : p.reference = r := by
  have := List.find?_some h
  simpa using this

/-- An order found by id carries that id. -/
theorem findOrder_id {db : DB} {i : Nat} {o : Order}
    (h : findOrder db i = some o) : o.id = i := by
  have := List.find?_some h
  simpa using this

/-- Saving a payment whose reference resolves to an existing row makes the
lookup of that reference return the saved row. -/
theorem findPayment_savePayment_self {db : DB} {p q : Payment} {r : String}
    (hq : findPayment db r = some q) (hp : p.reference = r) :
    findPayment (savePayment db p) r = some p :=
  find?_map_replace Payment.reference p q r db.payments hp hq

/-- Saving an order whose id resolves to an existing row makes the lookup
of that id return the saved row. -/
theorem findOrder_saveOrder_self {db : DB} {o old : Order} {i : Nat}
    (hq : findOrder db i = some old) (ho : o.id = i) :
    findOrder (saveOrder db o) i = some o :=
  find?_map_replace Order.id o old i db.orders ho hq

/-- Saving a payment leaves the order collection untouched. -/
@[simp] theorem orders_savePayment (db : DB) (p : Payment) :
    (savePayment db p).orders = db.orders := rfl

/-- Saving an order leaves the payment collection untouched. -/
@[simp] theorem payments_saveOrder (db : DB) (o : Order) :
    (saveOrder db o).payments = db.payments := rfl

/-- Order lookups see through payment saves. -/
@[simp] theorem findOrder_savePayment (db : DB) (p : Payment) (i : Nat) :
    findOrder (savePayment db p) i = findOrder db i := rfl

/-- Payment lookups see through order saves. -/
@[simp] theorem findPayment_saveOrder (db : DB) (o : Order) (r : String) :
    findPayment (saveOrder db o) r = findPayment db r := rfl

/-- Order lookups see through payment creation. -/
@[simp] theorem findOrder_createPayment (db : DB) (p : Payment) (i : Nat) :
    findOrder (createPayment db p) i = findOrder db i := rfl

/-! ### Claim theorems -/

/-- Claim C4: whenever the keyed HMAC recomputed over the request body
differs from the supplied signature header (including a missing header),
handleWebhook rejects the request with the invalid-signature error (HTTP
400) and leaves the store untouched, for every event type and payload. -/
theorem webhook_signature_gate (hmac : String → String → String) (secret : String)
    (db : DB) (req : WebhookReq)
    (h : req.signature = none ∨ ∀ s, req.signature = some s → hmac secret req.rawBody ≠ s) :
    handleWebhook hmac secret db req = (db, .errInvalidSignature) := by
  have hv : validateWebhookSignature hmac secret req.signature req.rawBody = false := by
    rcases h with h | h
    · simp [validateWebhookSignature, h]
    · cases hs : req.signature with
      | none => simp [validateWebhookSignature]
      | some s =>
        simpa [validateWebhookSignature] using beq_eq_false_iff_ne.mpr (h s hs)
  simp [handleWebhook, hv]

/-- Witness for C4: a concrete mismatched signature is rejected with no
state change. -/
theorem webhook_signature_gate_witness :
    handleWebhook wHmac "sk" wDB wBadSigReq = (wDB, .errInvalidSignature) :=
  webhook_signature_gate wHmac "sk" wDB wBadSigReq
    (Or.inr (fun s hs => by
      have : s = "bad" := by
        simpa [wBadSigReq] using hs.symm
      subst this
      decide))

/-- Claim C6: a verifyPayment call by a user who does not own the payment
fails with the forbidden error, does not reach the gateway call, and
leaves the store untouched, whatever the gateway would have answered. -/
theorem verify_ownership_gate (db : DB) (reference : String) (userId : Nat)
    (gw : VerifyGw) (p : Payment) (hfind : findPayment db reference = some p)
    (hown : p.user ≠ userId) :
    verifyPayment db reference userId gw = ⟨db, .errForbidden, false⟩ := by
  simp [verifyPayment, hfind, hown]

/-- Witness for C6: user 2 polling user 1's payment is rejected. -/
theorem verify_ownership_gate_witness :
    verifyPayment wDB "ORDER-1-5" 2 (.resp true wSuccessData)
      = ⟨wDB, .errForbidden, false⟩ :=
  verify_ownership_gate wDB "ORDER-1-5" 2 (.resp true wSuccessData) wPendingPayment
    (by decide) (by decide)

/-- Claim C7: a signature-valid webhook request is always acknowledged
with 200; an event other than charge.success and charge.failed leaves the
store untouched, and so does any event whose payload reference matches no
ledger row. -/
theorem webhook_acknowledge (hmac : String → String → String) (secret : String)
    (db : DB) (req : WebhookReq)
    (h : validateWebhookSignature hmac secret req.signature req.rawBody = true) :
    (handleWebhook hmac secret db req).2 = .acknowledged ∧
    (req.event ≠ "charge.success" → req.event ≠ "charge.failed" →
      (handleWebhook hmac secret db req).1 = db) ∧
    (findPayment db req.data.reference = none →
      (handleWebhook hmac secret db req).1 = db) := by
  refine ⟨by simp [handleWebhook, h], ?_, ?_⟩
  · intro h1 h2
    simp [handleWebhook, h, h1, h2]
  · intro hnone
    by_cases h1 : req.event = "charge.success"
    · simp [handleWebhook, h, h1, handleSuccessfulCharge, hnone]
    · by_cases h2 : req.event = "charge.failed"
      · simp [handleWebhook, h, h1, h2, handleFailedCharge, hnone]
      · simp [handleWebhook, h, h1, h2]

/-- Witness for C7: a signature-valid request with an unrecognized event
and an unknown reference is acknowledged and changes nothing. -/
theorem webhook_acknowledge_witness :
    (handleWebhook wHmac "sk" wEmptyDB wOtherReq).2 = .acknowledged ∧
    (wOtherReq.event ≠ "charge.success" → wOtherReq.event ≠ "charge.failed" →
      (handleWebhook wHmac "sk" wEmptyDB wOtherReq).1 = wEmptyDB) ∧
    (findPayment wEmptyDB wOtherReq.data.reference = none →
      (handleWebhook wHmac "sk" wEmptyDB wOtherReq).1 = wEmptyDB) :=
  webhook_acknowledge wHmac "sk" wEmptyDB wOtherReq (by decide)

/-- Claim C8: the amount initializeTransaction sends to the provider is
the input times 100 rounded to the nearest integer (Math.round, within
half a unit of the exact product, and agreeing with toKobo), and for an
amount that is an integer multiple of 0.01 the conversion is exact. -/
theorem kobo_conversion :
    (∀ a : Rat, initTransactionAmount a = jsRound (a * 100)
      ∧ toKobo a = initTransactionAmount a) ∧
    (∀ a : Rat, |(initTransactionAmount a : Rat) - a * 100| ≤ 1 / 2) ∧
    (∀ k : Int, initTransactionAmount ((k : Rat) / 100) = k
      ∧ toKobo ((k : Rat) / 100) = k) := by
  refine ⟨fun a => ⟨rfl, rfl⟩, fun a => ?_, fun k => ?_⟩
  · have h1 : (⌊a * 100 + 1 / 2⌋ : Rat) ≤ a * 100 + 1 / 2 := Int.floor_le _
    have h2 : a * 100 + 1 / 2 < ⌊a * 100 + 1 / 2⌋ + 1 := Int.lt_floor_add_one _
    rw [abs_le]
    constructor
    · simp only [initTransactionAmount, jsRound]
      linarith
    · simp only [initTransactionAmount, jsRound]
      linarith
  · have hx : (k : Rat) / 100 * 100 = (k : Rat) := by
      field_simp
    have hfl : jsRound ((k : Rat) / 100 * 100) = k := by
      rw [hx]
      show ⌊(k : Rat) + 1 / 2⌋ = k
      rw [Int.floor_int_add]
      norm_num
    exact ⟨hfl, hfl⟩

/-- Counterexample for C2: a Payment already in the terminal success state
is not immune to later Resolve calls: a signature-valid charge.failed
webhook for its reference overwrites the stored status to failed. -/
theorem terminal_mutation_counterexample :
    (findPayment wSuccDB "ORDER-1-5").map Payment.status = some PStatus.success ∧
    validateWebhookSignature wHmac "sk" wFailReq.signature wFailReq.rawBody = true ∧
    (findPayment (handleWebhook wHmac "sk" wSuccDB wFailReq).1 "ORDER-1-5").map
      Payment.status = some PStatus.failed := ⟨rfl, rfl, rfl⟩

/-- Amended C2: only the polling path short-circuits on a terminal
status, and only on success: a verifyPayment call on a payment whose
stored status is success returns the stored payment as-is, changes no
state and does not call the gateway.  The webhook handlers apply their
verdicts unconditionally (a charge.failed event moves even a success
payment to failed), and polling a failed or abandoned payment re-resolves
it against the gateway. -/
theorem verify_success_noop (db : DB) (reference : String) (userId : Nat)
    (gw : VerifyGw) (p : Payment) (hfind : findPayment db reference = some p)
    (hown : p.user = userId) (hst : p.status = .success) :
    verifyPayment db reference userId gw = ⟨db, .alreadyVerified p, false⟩ := by
  simp [verifyPayment, hfind, hown, hst]

/-- Witness for the amended C2: polling the concrete resolved payment is a
no-op. -/
theorem verify_success_noop_witness :
    verifyPayment wSuccDB "ORDER-1-5" 1 (.resp true wFailData)
      = ⟨wSuccDB, .alreadyVerified wSuccPayment, false⟩ :=
  verify_success_noop wSuccDB "ORDER-1-5" 1 (.resp true wFailData) wSuccPayment
    (by decide) (by decide) (by decide)

/-- Claim C9: resolving a failed verdict touches only the payment row: the
webhook failed handler never mutates the order collection, and neither
does a polling resolution whose verdict is not success. -/
theorem failed_verdict_order_frame :
    (∀ db data, (handleFailedCharge db data).orders = db.orders) ∧
    (∀ db reference userId (ok : Bool) data, data.status ≠ "success" →
      (verifyPayment db reference userId (.resp ok data)).db.orders = db.orders) := by
  constructor
  · intro db data
    unfold handleFailedCharge
    cases findPayment db data.reference <;> rfl
  · intro db reference userId ok data hne
    unfold verifyPayment
    cases hfp : findPayment db reference with
    | none => rfl
    | some p =>
      by_cases h1 : p.user ≠ userId
      · simp [h1]
      · by_cases h2 : p.status = PStatus.success
        · simp [h1, h2]
        · by_cases h3 : ok = false
          · simp [h1, h2, h3]
          · simp [h1, h2, h3, hne]

/-- Witness for C9: a concrete failed resolution on both paths leaves the
order collection unchanged. -/
theorem failed_verdict_order_frame_witness :
    (handleFailedCharge wDB wFailData).orders = wDB.orders ∧
    (verifyPayment wDB "ORDER-1-5" 1 (.resp true wFailData)).db.orders = wDB.orders :=
  ⟨failed_verdict_order_frame.1 wDB wFailData,
   failed_verdict_order_frame.2 wDB "ORDER-1-5" 1 true wFailData (by decide)⟩

/-- Helper: on the happy path (order found, owned, unpaid, no active
payment, gateway success) initializePayment appends exactly the
createdPayment row and reports it. -/
theorem initializePayment_created (db : DB) (orderId userId : Nat)
    (currency : Option String) (now : Nat) (d : InitData) (order : Order)
    (hord : findOrder db orderId = some order) (hown : order.user = userId)
    (hpaid : order.isPaid = false) (hnone : findActivePayment db orderId = none) :
    initializePayment db orderId userId currency now (.resp true d)
      = ⟨createPayment db (createdPayment orderId userId currency now d order.totalPrice),
         .created (createdPayment orderId userId currency now d order.totalPrice), true,
         some (initTransactionAmount order.totalPrice)⟩ := by
  simp [initializePayment, hord, hown, hpaid, hnone]

/-- Helper: after appending a fresh pending row for this order, the active
payment lookup of a later initializePayment call finds exactly that row. -/
theorem findActivePayment_createPayment (db : DB) (orderId : Nat) (p : Payment)
    (hnone : findActivePayment db orderId = none)
    (ho : p.order = orderId) (hs : p.status = .pending) :
    findActivePayment (createPayment db p) orderId = some p := by
  unfold findActivePayment at hnone ⊢
  show (db.payments ++ [p]).find? _ = some p
  rw [find?_append_of_none _ _ hnone]
  simp [ho, hs]

/-- Claim C3: initialization is idempotent per order - an existing
successful payment makes the call fail with an already-paid error and
write nothing; an existing pending payment is returned unchanged with its
reference, no gateway call and no new row; and two consecutive calls for a
fresh order yield the same reference and exactly one appended row. -/
theorem init_idempotent :
    (∀ db orderId userId currency now gw order ep,
      findOrder db orderId = some order → order.user = userId →
      findActivePayment db orderId = some ep → ep.status = .success →
      ((initializePayment db orderId userId currency now gw).result = .errOrderAlreadyPaid
        ∨ (initializePayment db orderId userId currency now gw).result = .errPaymentCompleted)
      ∧ (initializePayment db orderId userId currency now gw).db = db
      ∧ (initializePayment db orderId userId currency now gw).gatewayCalled = false) ∧
    (∀ db orderId userId currency now gw order ep,
      findOrder db orderId = some order → order.user = userId → order.isPaid = false →
      findActivePayment db orderId = some ep → ep.status = .pending →
      initializePayment db orderId userId currency now gw
        = ⟨db, .alreadyInitialized ep, false, none⟩) ∧
    (∀ db orderId userId currency now d currency2 now2 gw2 order,
      findOrder db orderId = some order → order.user = userId → order.isPaid = false →
      findActivePayment db orderId = none →
      ∃ p, (initializePayment db orderId userId currency now (.resp true d)).result
              = .created p
        ∧ p.reference = mkReference orderId now
        ∧ (initializePayment db orderId userId currency now (.resp true d)).db.payments
            = db.payments ++ [p]
        ∧ initializePayment
            (initializePayment db orderId userId currency now (.resp true d)).db
            orderId userId currency2 now2 gw2
            = ⟨(initializePayment db orderId userId currency now (.resp true d)).db,
               .alreadyInitialized p, false, none⟩) := by
  refine ⟨?_, ?_, ?_⟩
  · intro db orderId userId currency now gw order ep hord hown hfa hst
    by_cases h2 : order.isPaid
    · simp [initializePayment, hord, hown, h2]
    · simp [initializePayment, hord, hown, h2, hfa, hst]
  · intro db orderId userId currency now gw order ep hord hown hpaid hfa hst
    simp [initializePayment, hord, hown, hpaid, hfa, hst]
  · intro db orderId userId currency now d currency2 now2 gw2 order hord hown hpaid hnone
    have hfirst := initializePayment_created db orderId userId currency now d order
      hord hown hpaid hnone
    refine ⟨createdPayment orderId userId currency now d order.totalPrice,
      by rw [hfirst], rfl, by rw [hfirst]; rfl, ?_⟩
    rw [hfirst]
    have hfa := findActivePayment_createPayment db orderId
      (createdPayment orderId userId currency now d order.totalPrice) hnone rfl rfl
    have hst : (createdPayment orderId userId currency now d order.totalPrice).status
        = PStatus.pending := rfl
    simp [initializePayment, hord, hown, hpaid, hfa, hst]

/-- Witness for C3: on the concrete store with one unpaid order and no
payment rows, two consecutive initialize calls return the same reference
and append exactly one row. -/
theorem init_idempotent_witness :
    ∃ p, (initializePayment wEmptyDB 1 1 none 5 (.resp true wInitData)).result
            = .created p
      ∧ p.reference = mkReference 1 5
      ∧ (initializePayment wEmptyDB 1 1 none 5 (.resp true wInitData)).db.payments
          = wEmptyDB.payments ++ [p]
      ∧ initializePayment
          (initializePayment wEmptyDB 1 1 none 5 (.resp true wInitData)).db
          1 1 none 9 .throws
          = ⟨(initializePayment wEmptyDB 1 1 none 5 (.resp true wInitData)).db,
             .alreadyInitialized p, false, none⟩ :=
  init_idempotent.2.2 wEmptyDB 1 1 none 5 wInitData none 9 .throws wUnpaidOrder
    (by decide) (by decide) (by decide) (by decide)

/-- Claim C5: a failing startCharge (thrown transport error or a response
without a success status) never writes a ledger row - the store is
unchanged for every such call - and on the path that reaches the gateway
the failure is surfaced to the caller as an initialization error. -/
theorem init_all_or_nothing :
    (∀ db orderId userId currency now gw,
      (gw = InitGw.throws ∨ ∃ d, gw = InitGw.resp false d) →
      (initializePayment db orderId userId currency now gw).db = db) ∧
    (∀ db orderId userId currency now gw order,
      findOrder db orderId = some order → order.user = userId → order.isPaid = false →
      findActivePayment db orderId = none →
      (gw = InitGw.throws ∨ ∃ d, gw = InitGw.resp false d) →
      ((initializePayment db orderId userId currency now gw).result = .errInitThrown
        ∨ (initializePayment db orderId userId currency now gw).result = .errInitFailed)
      ∧ (initializePayment db orderId userId currency now gw).gatewayCalled = true) := by
  constructor
  · intro db orderId userId currency now gw hgw
    unfold initializePayment
    cases hfo : findOrder db orderId with
    | none => rfl
    | some order =>
      by_cases h1 : order.user ≠ userId
      · simp [h1]
      · by_cases h2 : order.isPaid
        · simp [h1, h2]
        · cases hfa : findActivePayment db orderId with
          | some ep =>
            by_cases h3 : ep.status = PStatus.success <;> simp [h1, h2, h3]
          | none =>
            rcases hgw with rfl | ⟨d, rfl⟩
            · simp [h1, h2]
            · simp [h1, h2]
  · intro db orderId userId currency now gw order hord hown hpaid hnone hgw
    rcases hgw with rfl | ⟨d, rfl⟩
    · exact ⟨Or.inl (by simp [initializePayment, hord, hown, hpaid, hnone]),
        by simp [initializePayment, hord, hown, hpaid, hnone]⟩
    · exact ⟨Or.inr (by simp [initializePayment, hord, hown, hpaid, hnone]),
        by simp [initializePayment, hord, hown, hpaid, hnone]⟩

/-- Witness for C5: a concrete thrown gateway call leaves the store
unchanged, and on the reachable path surfaces an initialization error. -/
theorem init_all_or_nothing_witness :
    (initializePayment wEmptyDB 1 1 none 5 .throws).db = wEmptyDB ∧
    (((initializePayment wEmptyDB 1 1 none 5 .throws).result = .errInitThrown
        ∨ (initializePayment wEmptyDB 1 1 none 5 .throws).result = .errInitFailed)
      ∧ (initializePayment wEmptyDB 1 1 none 5 .throws).gatewayCalled = true) :=
  ⟨init_all_or_nothing.1 wEmptyDB 1 1 none 5 .throws (Or.inl rfl),
   init_all_or_nothing.2 wEmptyDB 1 1 none 5 .throws wUnpaidOrder
     (by decide) (by decide) (by decide) (by decide) (Or.inl rfl)⟩

/-- Claim C10: every row created by a successful initialize call is
pending, stores the order's totalPrice in major units while the gateway
was sent the 100x converted amount, belongs to the order's owner, and
defaults its currency to NGN when the caller supplies none. -/
theorem init_created_invariants (db : DB) (orderId userId : Nat)
    (currency : Option String) (now : Nat) (d : InitData) (order : Order)
    (hord : findOrder db orderId = some order) (hown : order.user = userId)
    (hpaid : order.isPaid = false) (hnone : findActivePayment db orderId = none) :
    ∃ p, (initializePayment db orderId userId currency now (.resp true d)).result
            = .created p
      ∧ p.status = .pending
      ∧ p.amount = order.totalPrice
      ∧ p.user = order.user
      ∧ (currency = none → p.currency = "NGN")
      ∧ (initializePayment db orderId userId currency now (.resp true d)).sentAmount
          = some (toKobo order.totalPrice) := by
  have hfirst := initializePayment_created db orderId userId currency now d order
    hord hown hpaid hnone
  refine ⟨createdPayment orderId userId currency now d order.totalPrice,
    by rw [hfirst], rfl, rfl, hown.symm, ?_, by rw [hfirst]; rfl⟩
  intro h
  subst h
  rfl

/-- Witness for C10: the concrete created row satisfies the invariants. -/
theorem init_created_invariants_witness :
    ∃ p, (initializePayment wEmptyDB 1 1 none 5 (.resp true wInitData)).result
            = .created p
      ∧ p.status = .pending
      ∧ p.amount = wUnpaidOrder.totalPrice
      ∧ p.user = wUnpaidOrder.user
      ∧ (none = (none : Option String) → p.currency = "NGN")
      ∧ (initializePayment wEmptyDB 1 1 none 5 (.resp true wInitData)).sentAmount
          = some (toKobo wUnpaidOrder.totalPrice) :=
  init_created_invariants wEmptyDB 1 1 none 5 wInitData wUnpaidOrder
    (by decide) (by decide) (by decide) (by decide)

/-- Shape of handleSuccessfulCharge when the referenced order is already
paid: only the payment row is rewritten. -/
theorem handleSuccessfulCharge_paid (db : DB) (data : VerdictData) (q : Payment)
    (o : Order) (hq : findPayment db data.reference = some q)
    (ho : findOrder db q.order = some o) (hpaid : o.isPaid = true) :
    handleSuccessfulCharge db data = savePayment db
      { q with
        status := .success, paystackData := some (.verdict data),
        gatewayResponse := some data.gateway_response, channel := some data.channel,
        paymentMethod := some data.channel, paidAt := some data.paid_at } := by
  simp [handleSuccessfulCharge, hq, ho, hpaid]

/-- Shape of handleSuccessfulCharge when the referenced order is unpaid:
the payment row is rewritten and the order is marked paid. -/
theorem handleSuccessfulCharge_unpaid (db : DB) (data : VerdictData) (q : Payment)
    (o : Order) (hq : findPayment db data.reference = some q)
    (ho : findOrder db q.order = some o) (hpaid : o.isPaid = false) :
    handleSuccessfulCharge db data =
      saveOrder
        (savePayment db
          { q with
            status := .success, paystackData := some (.verdict data),
            gatewayResponse := some data.gateway_response, channel := some data.channel,
            paymentMethod := some data.channel, paidAt := some data.paid_at })
        { o with
          isPaid := true, paidAt := some data.paid_at,
          paymentMethod := some "paystack", paystackReference := some data.reference,
          paymentResult := some ⟨data.txId, data.status, data.paid_at,
            data.customerEmail⟩ } := by
  simp [handleSuccessfulCharge, hq, ho, hpaid]

/-- Shape of verifyPayment on a non-terminal payment when the gateway
reports success: the payment row is rewritten and the order is marked
paid unconditionally. -/
theorem verifyPayment_success_shape (db : DB) (reference : String) (userId : Nat)
    (data : VerdictData) (q : Payment) (o : Order)
    (hq : findPayment db reference = some q) (hqu : q.user = userId)
    (hqs : ¬ q.status = PStatus.success) (hds : data.status = "success")
    (ho : findOrder db q.order = some o) :
    verifyPayment db reference userId (.resp true data) =
      ⟨savePayment
        (saveOrder db
          { o with
            isPaid := true, paidAt := some data.paid_at,
            paymentMethod := some "paystack", paystackReference := some reference,
            paymentResult := some ⟨data.txId, data.status, data.paid_at,
              data.customerEmail⟩ })
        { q with
          status := .success, paystackData := some (.verdict data),
          gatewayResponse := some data.gateway_response, channel := some data.channel,
          paymentMethod := some data.channel, paidAt := some data.paid_at },
       .resolved
        { q with
          status := .success, paystackData := some (.verdict data),
          gatewayResponse := some data.gateway_response, channel := some data.channel,
          paymentMethod := some data.channel, paidAt := some data.paid_at },
       true⟩ := by
  simp [verifyPayment, hq, hqu, hqs, hds, ho]

/-- Each later success call preserves the resolved state: the ledger row
stays in success status with its identity fields, and the order row the
first call wrote is never touched again. -/
theorem resolvedInv_step (reference : String) (owner oid : Nat) (o1 : Order) (db : DB)
    (c : SuccessCall) (ho : o1.isPaid = true) (hc : successCallFor reference owner c)
    (hinv : resolvedInv reference owner oid o1 db) :
    resolvedInv reference owner oid o1 (applyCall reference db c) := by
  obtain ⟨⟨q, hq, hqs, hqu, hqo, hqr⟩, hord⟩ := hinv
  cases c with
  | poll userId data =>
    obtain ⟨rfl, hds⟩ := hc
    have hnoop : verifyPayment db reference userId (.resp true data)
        = ⟨db, .alreadyVerified q, false⟩ := by
      simp [verifyPayment, hq, hqu, hqs]
    show resolvedInv reference userId oid o1
      (verifyPayment db reference userId (.resp true data)).db
    rw [hnoop]
    exact ⟨⟨q, hq, hqs, hqu, hqo, hqr⟩, hord⟩
  | hook data =>
    obtain ⟨hdr, hds⟩ := hc
    have hq' : findPayment db data.reference = some q := by rw [hdr]; exact hq
    have ho' : findOrder db q.order = some o1 := by rw [hqo]; exact hord
    have hshape := handleSuccessfulCharge_paid db data q o1 hq' ho' ho
    show resolvedInv reference owner oid o1 (handleSuccessfulCharge db data)
    rw [hshape]
    refine ⟨⟨_, findPayment_savePayment_self hq hqr, rfl, hqu, hqo, hqr⟩, ?_⟩
    rw [findOrder_savePayment]
    exact hord

/-- The first success call on a pending payment with an unpaid order
resolves the payment and writes the paid order row. -/
theorem first_success (reference : String) (owner oid : Nat) (p : Payment) (o : Order)
    (db : DB) (c : SuccessCall)
    (hfind : findPayment db reference = some p) (hpend : p.status = .pending)
    (hpu : p.user = owner) (hpo : p.order = oid)
    (hord : findOrder db oid = some o) (hpaid : o.isPaid = false)
    (hc : successCallFor reference owner c) :
    ∃ o1, o1.isPaid = true ∧ o1.paidAt = some (callData c).paid_at ∧
      resolvedInv reference owner oid o1 (applyCall reference db c) := by
  have hpr : p.reference = reference := findPayment_ref hfind
  have hoid : o.id = oid := findOrder_id hord
  have ho' : findOrder db p.order = some o := by rw [hpo]; exact hord
  cases c with
  | poll userId data =>
    obtain ⟨rfl, hds⟩ := hc
    have hshape := verifyPayment_success_shape db reference userId data p o hfind hpu
      (by rw [hpend]; exact fun h => PStatus.noConfusion h) hds ho'
    show ∃ o1, o1.isPaid = true ∧ o1.paidAt = some data.paid_at ∧
      resolvedInv reference userId oid o1
        (verifyPayment db reference userId (.resp true data)).db
    rw [hshape]
    refine ⟨{ o with
        isPaid := true, paidAt := some data.paid_at,
        paymentMethod := some "paystack", paystackReference := some reference,
        paymentResult := some ⟨data.txId, data.status, data.paid_at,
          data.customerEmail⟩ },
      rfl, rfl,
      ⟨{ p with
          status := .success, paystackData := some (.verdict data),
          gatewayResponse := some data.gateway_response, channel := some data.channel,
          paymentMethod := some data.channel, paidAt := some data.paid_at },
        ?_, rfl, hpu, hpo, hpr⟩, ?_⟩
    · exact findPayment_savePayment_self (q := p)
        (by rw [findPayment_saveOrder]; exact hfind) hpr
    · rw [findOrder_savePayment]
      exact findOrder_saveOrder_self hord hoid
  | hook data =>
    obtain ⟨hdr, hds⟩ := hc
    have hq' : findPayment db data.reference = some p := by rw [hdr]; exact hfind
    have hshape := handleSuccessfulCharge_unpaid db data p o hq' ho' hpaid
    show ∃ o1, o1.isPaid = true ∧ o1.paidAt = some data.paid_at ∧
      resolvedInv reference owner oid o1 (handleSuccessfulCharge db data)
    rw [hshape]
    refine ⟨{ o with
        isPaid := true, paidAt := some data.paid_at,
        paymentMethod := some "paystack", paystackReference := some data.reference,
        paymentResult := some ⟨data.txId, data.status, data.paid_at,
          data.customerEmail⟩ },
      rfl, rfl,
      ⟨{ p with
          status := .success, paystackData := some (.verdict data),
          gatewayResponse := some data.gateway_response, channel := some data.channel,
          paymentMethod := some data.channel, paidAt := some data.paid_at },
        ?_, rfl, hpu, hpo, hpr⟩, ?_⟩
    · rw [findPayment_saveOrder]
      exact findPayment_savePayment_self hfind hpr
    · exact findOrder_saveOrder_self
        (by rw [findOrder_savePayment]; exact hord) hoid

/-- Iterating resolvedInv_step over any list of success calls. -/
theorem resolvedInv_steps (reference : String) (owner oid : Nat) (o1 : Order)
    (ho : o1.isPaid = true) (cs : List SuccessCall)
    (hall : ∀ c ∈ cs, successCallFor reference owner c) (db : DB)
    (hinv : resolvedInv reference owner oid o1 db) :
    resolvedInv reference owner oid o1 (applyCalls reference db cs) := by
  induction cs generalizing db with
  | nil => exact hinv
  | cons c cs ih =>
    exact ih (fun c' hc' => hall c' (List.mem_cons_of_mem _ hc'))
      (applyCall reference db c)
      (resolvedInv_step reference owner oid o1 db c ho
        (hall c (List.mem_cons_self _ _)) hinv)

/-- Claim C1: starting from a pending payment whose order is unpaid,
applying any nonempty sequence of success-verdict Resolve calls - polling,
webhook, or a mix, in any order - yields exactly one pending-to-success
transition: after the first call and after every longer prefix the ledger
row is in success status, and the order row written by the first call
(paid flag set, paidAt taken from the first verdict) is returned unchanged
by every subsequent call. -/
theorem exactly_once_success (db : DB) (reference : String) (owner oid : Nat)
    (p : Payment) (o : Order) (c : SuccessCall) (cs : List SuccessCall)
    (hfind : findPayment db reference = some p) (hpend : p.status = .pending)
    (hpu : p.user = owner) (hpo : p.order = oid)
    (hord : findOrder db oid = some o) (hpaid : o.isPaid = false)
    (hc : successCallFor reference owner c)
    (hall : ∀ c' ∈ cs, successCallFor reference owner c') :
    ∃ o1, o1.isPaid = true ∧ o1.paidAt = some (callData c).paid_at ∧
      ∀ cs1 cs2, cs = cs1 ++ cs2 →
        (∃ q, findPayment (applyCalls reference db (c :: cs1)) reference = some q
          ∧ q.status = .success)
        ∧ findOrder (applyCalls reference db (c :: cs1)) oid = some o1 := by
  obtain ⟨o1, h1, h2, hinv⟩ :=
    first_success reference owner oid p o db c hfind hpend hpu hpo hord hpaid hc
  refine ⟨o1, h1, h2, ?_⟩
  intro cs1 cs2 hsplit
  have hall1 : ∀ c' ∈ cs1, successCallFor reference owner c' := fun c' hc' =>
    hall c' (by rw [hsplit]; exact List.mem_append_left _ hc')
  have hrun := resolvedInv_steps reference owner oid o1 h1 cs1 hall1
    (applyCall reference db c) hinv
  have hfold : applyCalls reference db (c :: cs1)
      = applyCalls reference (applyCall reference db c) cs1 := rfl
  rw [hfold]
  obtain ⟨⟨q, hq, hqs, _, _, _⟩, hordf⟩ := hrun
  exact ⟨⟨q, hq, hqs⟩, hordf⟩

/-- Witness for C1: on the concrete pending payment, a webhook success
followed by an owner poll ends with one success row and the order written
by the first call, for every prefix split. -/
theorem exactly_once_success_witness :
    ∃ o1, o1.isPaid = true
      ∧ o1.paidAt = some (callData (.hook wSuccessData)).paid_at
      ∧ ∀ cs1 cs2, [SuccessCall.poll 1 wSuccessData] = cs1 ++ cs2 →
        (∃ q, findPayment
            (applyCalls "ORDER-1-5" wDB (SuccessCall.hook wSuccessData :: cs1))
            "ORDER-1-5" = some q ∧ q.status = .success)
        ∧ findOrder
            (applyCalls "ORDER-1-5" wDB (SuccessCall.hook wSuccessData :: cs1)) 1
            = some o1 :=
  exactly_once_success wDB "ORDER-1-5" 1 1 wPendingPayment wUnpaidOrder
    (.hook wSuccessData) [.poll 1 wSuccessData]
    (by decide) (by decide) (by decide) (by decide) (by decide) (by decide)
    ⟨rfl, rfl⟩
    (fun c' hc' => by
      have : c' = SuccessCall.poll 1 wSuccessData := by
        simpa using hc'
      rw [this]
      exact ⟨rfl, rfl⟩)

end ECommerce
